import Mathlib

/-!
Shallow embedding of the dataset coordination layer of `src/app.py`
(christians_tool): three patient-record datasets (SAMSA, TES, KORTTID),
each a pandas dataframe mirrored to a CSV file, mutated through the
ADDPatient, DeletePatient, UpdateSamsa, UpdateNote and Display widgets
and kept consistent through `Data`'s observer registry.

Dataframes are embedded as lists of records; `to_csv(..., index=False)`
followed by `read_csv` round-trips the list, so a CSV file is embedded as
the list it holds.  Observer refresh callbacks re-read the CSV into the
shared dataframe; at the dataset level that is the identity (the file was
just written from that dataframe), so a notification is embedded as the
ordered list of observer keys whose update methods run.
-/

namespace ChristiansTool

/-- The three dataset categories, selected in `app.py` by the strings
"SAMSA"/"TES"/"KORTTID" (add flow) and the flags "s"/"t"/"k", "sa"/"te"/"ko",
"S"/"T"/"K" in the other widgets.  The three per-category code branches are
verbatim copies of each other apart from names, so the embedding defines each
operation once, parameterized by the category. -/
inductive Category
  | samsa
  | tes
  | korttid
deriving DecidableEq, Repr

/-- One dataframe row.  `ADDPatient.button_clicked` (app.py:302) builds every
row from the seven keys Personnummer, Förnamn, Efternamn, Område, Inskriven,
Typ, Anteckning, in this order. -/
structure Record where
  personnummer : String
  fornamn : String
  efternamn : String
  omrade : String
  inskriven : String
  typ : String
  anteckning : String
deriving DecidableEq, Repr

/-- The column header written by `Window.create_files` (app.py:1348) when it
bootstraps a missing CSV file. -/
def bootstrapColumns : List String :=
  ["Personnummer", "Förnamn", "Efternamn", "Område", "Inskriven", "Typ", "Anteckning"]

/-- The header list `ADDPatient.button_clicked` (app.py:302) uses to build the
dict for a new row. -/
def addHeader : List String :=
  ["Personnummer", "Förnamn", "Efternamn", "Område", "Inskriven", "Typ", "Anteckning"]

/-- The cells of one persisted CSV row, in column order.  `to_csv(...,
index=False)` writes exactly the dataframe columns, so a row is the seven
record fields and nothing else (in particular no index cell). -/
def rowOfRecord (r : Record) : List String :=
  [r.personnummer, r.fornamn, r.efternamn, r.omrade, r.inskriven, r.typ, r.anteckning]

/-- The observer key of the per-category DeletePatient combo (identity
listing): DeletePatient registers itself as "sd"/"td"/"kd" (app.py:379). -/
def identityListingKey : Category → String
  | .samsa => "sd"
  | .tes => "td"
  | .korttid => "kd"

/-- The observer key of the per-category UpdateNote view: UpdateNote registers
itself as "sc"/"tc"/"kc" (app.py:640). -/
def noteEditingKey : Category → String
  | .samsa => "sc"
  | .tes => "tc"
  | .korttid => "kc"

/-- The observer key of the per-category Display table (app.py:927). -/
def displayKey : Category → String
  | .samsa => "display_samsa"
  | .tes => "display_tes"
  | .korttid => "display_korttid"

/-- The keys refreshed by `Data.notify_sa_observer` and its tes/korttid twins
(app.py:40-62), in call order: delete combo, note view, display table. -/
def fullNotifyKeys (c : Category) : List String :=
  [identityListingKey c, noteEditingKey c, displayKey c]

/-- The keys refreshed by `Data.when_change_has_been_made_directly_on_*_table`
(app.py:64-83): delete combo and note view, but not the display table. -/
def skipNotifyKeys (c : Category) : List String :=
  [identityListingKey c, noteEditingKey c]

/-- The observable state of one category's dataset: the shared in-memory
dataframe (`Data._samsa_df` etc.), the CSV file contents, and the ordered
log of observer keys whose update methods have run. -/
structure DataState where
  mem : List Record
  disk : List Record
  notified : List String
deriving DecidableEq, Repr

/-- `Data.save_to_samsa_csv` and its twins (app.py:139-182): write the
dataframe to the CSV file, then notify.  Each notified observer re-reads the
CSV into the shared dataframe, which was just written from it, so the
dataframe is unchanged at this level; the embedding records which observer
keys ran.  `skip_update=False` runs the full fan-out, `skip_update=True` the
direct-table variant. -/
def saveToCsv (c : Category) (skipUpdate : Bool) (st : DataState) : DataState :=
  match skipUpdate with
  | false => { mem := st.mem, disk := st.mem, notified := st.notified ++ fullNotifyKeys c }
  | true => { mem := st.mem, disk := st.mem, notified := st.notified ++ skipNotifyKeys c }

/-- The 11-character core of the pattern `\d{6}-\d{4}`: six decimal digits, a
hyphen, four decimal digits.  (`\d` is modelled as an ASCII decimal digit;
the inputs the program feeds this validator are ASCII.) -/
def matchesIdentityCore : List Char → Bool
  | [a, b, c, d, e, f, g, h, i, j, k] =>
      a.isDigit && b.isDigit && c.isDigit && d.isDigit && e.isDigit && f.isDigit &&
        g = '-' && h.isDigit && i.isDigit && j.isDigit && k.isDigit
  | _ => false

/-- `check_format_personal_nr` (app.py:283-292 and 1212-1221):
`bool(re.match(r'^\d{6}-\d{4}$', input_string))`.  In Python, `$` (without
re.MULTILINE) matches at the end of the string or just before a newline at
the end of the string, so the regex accepts the 11-character core either
alone or followed by exactly one trailing newline. -/
def checkFormatPersonalNr (s : String) : Bool :=
  matchesIdentityCore s.data ||
    ((s.data.getLast? = some '\n' : Bool) && matchesIdentityCore s.data.dropLast)

/-- The spec's reading of the identity rule, for comparison with the code's
`checkFormatPersonalNr`: the string consists exactly of six digits, a hyphen
and four digits, anchored at both ends with no surrounding whitespace. -/
def specExactIdentity (s : String) : Bool :=
  matchesIdentityCore s.data

/-- The `x if x != "" else "-"` defaulting `ADDPatient.connect_button`
(app.py:226-234) applies to the first-name, last-name and note fields. -/
def applyDefault (s : String) : String :=
  if s = "" then "-" else s

/-- The value tuple `ADDPatient.connect_button` (app.py:226-234) submits:
the raw inputs with empty first name, last name and note replaced by "-"
(identity, area, enrolled and type are passed through). -/
def submitValues (raw : Record) : Record :=
  { raw with
    fornamn := applyDefault raw.fornamn
    efternamn := applyDefault raw.efternamn
    anteckning := applyDefault raw.anteckning }

/-- The "Typ" combo string that routes `ADDPatient.button_clicked` to each
category's branch (app.py:306-347). -/
def typName : Category → String
  | .samsa => "SAMSA"
  | .tes => "TES"
  | .korttid => "KORTTID"

/-- `ADDPatient.button_clicked` (app.py:294-351), restricted to category `c`'s
dataset: if the identity passes `check_format_personal_nr` and the Typ value
selects `c`, re-read the CSV, concatenate the new row after the existing rows
and save (full notification); otherwise this dataset is untouched.  The
EmptyDataError branch (app.py:316-319) produces the one-row dataframe, which
is the same concatenation with zero existing rows, so both source branches
are the single list append. -/
def addPatientButtonClicked (c : Category) (vals : Record) (st : DataState) : DataState :=
  if checkFormatPersonalNr vals.personnummer && vals.typ = typName c then
    saveToCsv c false { st with mem := st.disk ++ [vals] }
  else st

/-- Python `text.split(sep=" ")[0]`: the characters of the combo text up to
the first space (`DeletePatient.button_clicked`, app.py:503). -/
def firstSpaceField (text : String) : String :=
  String.mk (text.data.takeWhile (fun c => !(c = ' ' : Bool)))

/-- `DeletePatient.button_clicked` (app.py:494-526): the identity is the text
before the first space of the combo text; `index.item()` succeeds only when
exactly one row matches, in which case that row is dropped and the dataframe
saved (full notification); a ValueError (zero or several matches) is caught
and nothing happens. -/
def deletePatientButtonClicked (c : Category) (text : String) (st : DataState) : DataState :=
  let personalNr := firstSpaceField text
  if st.mem.countP (fun r => r.personnummer = personalNr) = 1 then
    saveToCsv c false
      { st with mem := st.mem.filter (fun r => !(r.personnummer = personalNr : Bool)) }
  else st

/-- `UpdateNote.button_clicked` (app.py:851-886): the identity is the first 11
characters of the combo text; `index.item()` succeeds only when exactly one
row matches, in which case that row's Anteckning is set to the note (empty
coerced to "-") and the dataframe saved with the default `skip_update=False`,
i.e. the full notification fan-out; a ValueError is caught and nothing
happens. -/
def updateNoteButtonClicked (c : Category) (text note : String) (st : DataState) : DataState :=
  let personalNr := String.mk (text.data.take 11)
  if st.mem.countP (fun r => r.personnummer = personalNr) = 1 then
    let newNote := if note = "" then "-" else note
    saveToCsv c false
      { st with
        mem := st.mem.map fun r =>
          if r.personnummer = personalNr then { r with anteckning := newNote } else r }
  else st

/-- Python `values.replace(" ", "")`: every space character removed. -/
def removeBlanks : List Char → List Char
  | [] => []
  | c :: rest => if c = ' ' then removeBlanks rest else c :: removeBlanks rest

/-- Python `str.split(sep=",")`: the comma-separated pieces, one string per
piece; the empty string gives the single piece `""`. -/
def splitCommas : List Char → List String
  | [] => [""]
  | c :: rest =>
    if c = ',' then "" :: splitCommas rest
    else
      match splitCommas rest with
      | [] => [String.mk [c]]
      | t :: ts => String.mk (c :: t.data) :: ts

/-- The textbox parsing of `UpdateSamsa.button_clicked` (app.py:593):
`values.replace(" ", "").split(sep=",")` — remove every space, then split on
commas. -/
def parseTargets (s : String) : List String :=
  splitCommas (removeBlanks s.data)

/-- The placeholder row `[item, "-", "-", "-", "-", "-", "-"]` UpdateSamsa
appends for a new identity (app.py:613). -/
def placeholderRecord (p : String) : Record :=
  { personnummer := p, fornamn := "-", efternamn := "-", omrade := "-",
    inskriven := "-", typ := "-", anteckning := "-" }

/-- `UpdateSamsa.button_clicked` (app.py:585-625), the reconcile flow (it
exists only for the SAMSA dataset): if every parsed element matches the
identity pattern, drop the rows whose Personnummer is in `E \ T` (i.e. keep
the rows whose Personnummer is among the targets) and save, then re-read the
CSV and append one placeholder row per identity of `T \ E` and save again;
return the new state with the reported removed and added identity lists.
Python iterates `discharged` and `new` as sets; the embedding fixes
first-occurrence order (the claims use these lists only up to membership).
If any element fails the pattern, nothing happens and the reported lists are
empty. -/
def updateSamsaButtonClicked (rawText : String) (st : DataState) :
    DataState × List String × List String :=
  let values := parseTargets rawText
  if values.all checkFormatPersonalNr then
    let listOfPersonalNumbers := st.mem.map (fun r => r.personnummer)
    let discharged := (listOfPersonalNumbers.filter (fun p => !values.contains p)).dedup
    let kept := st.mem.filter (fun r => values.contains r.personnummer)
    let st1 := saveToCsv .samsa false { st with mem := kept }
    let added := (values.filter (fun p => !listOfPersonalNumbers.contains p)).dedup
    let st2 := saveToCsv .samsa false
      { st1 with mem := st1.disk ++ added.map placeholderRecord }
    (st2, discharged, added)
  else (st, [], [])

/-- `Display.check_if_valid` (app.py:1223-1239): per-column validity of a grid
cell edit.  Columns 0 (identity), 3 (area), 4 (enrolled) and 1/2/6 (free
text) return a boolean; every other column index falls through the `match`
and Python returns None, embedded as `none`. -/
def checkIfValid (column : Nat) (text : String) : Option Bool :=
  match column with
  | 0 => some (checkFormatPersonalNr text)
  | 3 => some (["Centrum", "Norrmalm", "Österlånggatan 4", "Margaretagatan 9"].contains text)
  | 4 => some (["Ja", "Nej"].contains text)
  | 1 | 2 | 6 => some (!(text = "" : Bool))
  | _ => none

/-- Writing one field of a record by column position, as `df.iat[row, column]`
addresses the seven columns in order. -/
def setField (r : Record) (column : Nat) (text : String) : Record :=
  match column with
  | 0 => { r with personnummer := text }
  | 1 => { r with fornamn := text }
  | 2 => { r with efternamn := text }
  | 3 => { r with omrade := text }
  | 4 => { r with inskriven := text }
  | 5 => { r with typ := text }
  | 6 => { r with anteckning := text }
  | _ => r

/-- `df.iat[row, column] = text` on the embedded row list: replace the field
at `column` of the record at position `row`. -/
def setCellAt (rows : List Record) (row column : Nat) (text : String) : List Record :=
  match rows, row with
  | [], _ => []
  | r :: rest, 0 => setField r column text :: rest
  | r :: rest, n + 1 => r :: setCellAt rest n column text

/-- `Display.cell_changed` (app.py:1241-1270): `if not self.check_if_valid(...)
: return` — Python treats both False and the fall-through None as falsy, so
the edit proceeds only when `check_if_valid` returns True; then the cell is
written into a copy of the dataframe, the copy becomes the shared dataframe
and it is saved with `skip_update=True` (the direct-table notification that
leaves the originating grid alone). -/
def cellChanged (c : Category) (row column : Nat) (text : String) (st : DataState) : DataState :=
  match checkIfValid column text with
  | some true => saveToCsv c true { st with mem := setCellAt st.mem row column text }
  | _ => st

/-- Sample SAMSA record used to instantiate theorems at concrete inputs. -/
def exR0 : Record :=
  { personnummer := "010101-1234", fornamn := "Anna", efternamn := "Berg",
    omrade := "Centrum", inskriven := "Ja", typ := "SAMSA", anteckning := "first" }

/-- Second sample SAMSA record used to instantiate theorems. -/
def exR1 : Record :=
  { personnummer := "020202-2345", fornamn := "Carl", efternamn := "Dahl",
    omrade := "Norrmalm", inskriven := "Nej", typ := "SAMSA", anteckning := "second" }

/-- An empty dataset state (fresh bootstrap). -/
def exEmpty : DataState := { mem := [], disk := [], notified := [] }

/-- A one-record dataset state. -/
def exOne : DataState := { mem := [exR0], disk := [exR0], notified := [] }

/-- A two-record dataset state matching the spec's reconcile scenario. -/
def exTwo : DataState := { mem := [exR0, exR1], disk := [exR0, exR1], notified := [] }

theorem contains_iff_mem (l : List String) (a : String) : l.contains a = true ↔ a ∈ l := by
  simp [List.contains, List.elem_iff]

theorem contains_eq_false_iff (l : List String) (a : String) :
    l.contains a = false ↔ a ∉ l := by
  rw [← Bool.not_eq_true, not_iff_not]
  exact contains_iff_mem l a

theorem countP_eq_one_of_nodup_mem {l : List String} {p : String}
    (hnd : l.Nodup) (hp : p ∈ l) : l.countP (fun q => q = p) = 1 := by
  induction l with
  | nil => cases hp
  | cons a t ih =>
    rw [List.countP_cons]
    rcases List.mem_cons.mp hp with rfl | hpt
    · have hnot : p ∉ t := (List.nodup_cons.mp hnd).1
      have hz : t.countP (fun q => (q = p : Bool)) = 0 := by
        rw [List.countP_eq_zero]
        intro b hb hbp
        have hbp' : b = p := by simpa using hbp
        subst hbp'
        exact hnot hb
      simp [hz]
    · have hone := ih (List.nodup_cons.mp hnd).2 hpt
      have hne : a ≠ p := by
        rintro rfl
        exact (List.nodup_cons.mp hnd).1 hpt
      simp [hone, hne]

/-- C1 counterexample: the bootstrap header `Window.create_files` writes has
seven columns, not six, and does store the category column "Typ". -/
theorem C1_counterexample : bootstrapColumns.length ≠ 6 ∧ "Typ" ∈ bootstrapColumns := by
  decide

/-- C1 (amended): every persisted row has exactly seven cells — the six
display columns plus the category column "Typ" at position 5 — laid out by
the same header in the bootstrap (`Window.create_files`) and in the append
flow (`ADDPatient.button_clicked`); a row holds exactly the seven record
fields and nothing else, in particular no trailing index cell (every save
uses `to_csv(..., index=False)`). -/
theorem C1_persisted_row_shape :
    bootstrapColumns = addHeader ∧
      bootstrapColumns.length = 7 ∧
      bootstrapColumns[5]? = some "Typ" ∧
      ∀ r : Record, (rowOfRecord r).length = bootstrapColumns.length ∧
        (rowOfRecord r)[5]? = some r.typ :=
  ⟨rfl, rfl, rfl, fun _ => ⟨rfl, rfl⟩⟩

/-- C2 counterexample: appending a record whose identity is already on disk
yields two stored records with that identity after the fresh re-read, not
exactly one — the append flow never checks for an existing identity. -/
theorem C2_counterexample :
    (addPatientButtonClicked .samsa exR0 exOne).disk.countP
        (fun r => r.personnummer = "010101-1234") ≠ 1 ∧
      (addPatientButtonClicked .samsa exR0 exOne).disk.countP
        (fun r => r.personnummer = "010101-1234") = 2 := by
  decide

/-- C2 (amended): provided the backing store holds no record with the
submitted identity yet, appending a record whose identity passes the format
check and whose Typ selects category `c` leaves, after a fresh read of the
backing store, exactly one record with that identity, and that record's
fields are the supplied values with empty first name, last name and note
defaulted to "-". -/
theorem C2_append_unique_identity (c : Category) (raw : Record) (st : DataState)
    (hfmt : checkFormatPersonalNr raw.personnummer = true)
    (htyp : raw.typ = typName c)
    (hfresh : st.disk.countP (fun r => r.personnummer = raw.personnummer) = 0) :
    (addPatientButtonClicked c (submitValues raw) st).disk.countP
        (fun r => r.personnummer = raw.personnummer) = 1 ∧
      ∀ r ∈ (addPatientButtonClicked c (submitValues raw) st).disk,
        r.personnummer = raw.personnummer → r = submitValues raw := by
  have hcond : (checkFormatPersonalNr (submitValues raw).personnummer &&
      ((submitValues raw).typ = typName c : Bool)) = true := by
    show (checkFormatPersonalNr raw.personnummer && (raw.typ = typName c : Bool)) = true
    rw [hfmt, htyp]
    simp
  have hdisk : (addPatientButtonClicked c (submitValues raw) st).disk =
      st.disk ++ [submitValues raw] := by
    simp [addPatientButtonClicked, hcond, saveToCsv]
  have hpn : (submitValues raw).personnummer = raw.personnummer := rfl
  constructor
  · rw [hdisk]
    simp [List.countP_append, List.countP_cons, hfresh, hpn]
  · intro r hr hpr
    rw [hdisk] at hr
    rcases List.mem_append.mp hr with h | h
    · have := List.countP_eq_zero.mp hfresh r h
      exact absurd hpr (by simpa using this)
    · simpa using h

/-- C2 witness: the amended append property at the concrete empty SAMSA
dataset and the sample record. -/
theorem C2_append_unique_identity_witness :
    (addPatientButtonClicked .samsa (submitValues exR0) exEmpty).disk.countP
        (fun r => r.personnummer = exR0.personnummer) = 1 ∧
      ∀ r ∈ (addPatientButtonClicked .samsa (submitValues exR0) exEmpty).disk,
        r.personnummer = exR0.personnummer → r = submitValues exR0 :=
  C2_append_unique_identity .samsa exR0 exEmpty (by decide) (by decide) (by decide)

/-- C4 counterexample: a successful note edit on SAMSA notifies the
identity-listing observer "sd" (DeletePatient's combo view), because
`UpdateNote.button_clicked` saves with the default `skip_update=False` and
`notify_sa_observer` refreshes "sd" first. -/
theorem C4_counterexample :
    identityListingKey .samsa ∈
      (updateNoteButtonClicked .samsa "010101-1234 Anna Berg" "new note" exOne).notified := by
  decide

/-- C4 (amended): a successful edit_note fires the full notification fan-out,
not a note-only class: the identity-listing observer, the note-editing
observer and the display observer of `c` are all refreshed, in that order. -/
theorem C4_edit_note_full_fanout (c : Category) (text note : String) (st : DataState)
    (h : st.mem.countP (fun r => r.personnummer = String.mk (text.data.take 11)) = 1) :
    (updateNoteButtonClicked c text note st).notified =
      st.notified ++ [identityListingKey c, noteEditingKey c, displayKey c] := by
  simp [updateNoteButtonClicked, h, saveToCsv, fullNotifyKeys]

/-- C4 witness: the full fan-out at a concrete one-record SAMSA dataset. -/
theorem C4_edit_note_full_fanout_witness :
    (updateNoteButtonClicked .samsa "010101-1234 Anna Berg" "new note" exOne).notified =
      exOne.notified ++
        [identityListingKey .samsa, noteEditingKey .samsa, displayKey .samsa] :=
  C4_edit_note_full_fanout .samsa "010101-1234 Anna Berg" "new note" exOne (by decide)

/-- C5 counterexample: the validator accepts "123456-7890" followed by a
trailing newline — Python's `$` matches just before a final newline — while
the string is not exactly six digits, a hyphen and four digits. -/
theorem C5_counterexample :
    checkFormatPersonalNr "123456-7890\n" = true ∧
      specExactIdentity "123456-7890\n" = false := by
  decide

/-- C5 (amended): the identity validator accepts `s` iff `s` is exactly six
digits, a hyphen and four digits, either alone or followed by exactly one
trailing newline; no other surrounding whitespace is accepted. -/
theorem C5_validator_characterization (s : String) :
    checkFormatPersonalNr s = true ↔
      specExactIdentity s = true ∨
        ∃ cs : List Char, s.data = cs ++ ['\n'] ∧ matchesIdentityCore cs = true := by
  unfold checkFormatPersonalNr specExactIdentity
  constructor
  · intro hacc
    rw [Bool.or_eq_true] at hacc
    rcases hacc with h | h
    · exact Or.inl h
    · right
      rw [Bool.and_eq_true] at h
      rcases h with ⟨hlast, hcore⟩
      have hlast' : s.data.getLast? = some '\n' := by simpa using hlast
      rcases List.eq_nil_or_concat s.data with hnil | ⟨l, a, hla⟩
      · rw [hnil] at hlast'
        cases hlast'
      · rw [List.concat_eq_append] at hla
        refine ⟨l, ?_, ?_⟩
        · rw [hla] at hlast' ⊢
          rw [List.getLast?_concat] at hlast'
          cases hlast'
          rfl
        · rw [hla, List.dropLast_concat] at hcore
          exact hcore
  · intro hor
    rw [Bool.or_eq_true]
    rcases hor with h | ⟨cs, hs, hc⟩
    · exact Or.inl h
    · right
      rw [hs, List.getLast?_concat, List.dropLast_concat]
      simp [hc]

theorem updateSamsa_eq_of_valid (rawText : String) (st : DataState)
    (hvalid : (parseTargets rawText).all checkFormatPersonalNr = true) :
    updateSamsaButtonClicked rawText st =
      ({ mem := st.mem.filter (fun r => (parseTargets rawText).contains r.personnummer) ++
            (((parseTargets rawText).filter (fun p =>
                !(st.mem.map (fun r => r.personnummer)).contains p)).dedup).map
              placeholderRecord,
         disk := st.mem.filter (fun r => (parseTargets rawText).contains r.personnummer) ++
            (((parseTargets rawText).filter (fun p =>
                !(st.mem.map (fun r => r.personnummer)).contains p)).dedup).map
              placeholderRecord,
         notified := (st.notified ++ fullNotifyKeys .samsa) ++ fullNotifyKeys .samsa },
       ((st.mem.map (fun r => r.personnummer)).filter
          (fun p => !(parseTargets rawText).contains p)).dedup,
       ((parseTargets rawText).filter
          (fun p => !(st.mem.map (fun r => r.personnummer)).contains p)).dedup) := by
  simp [updateSamsaButtonClicked, hvalid, saveToCsv]

/-- C8: deleting an identity that matches zero rows or several rows is a
silent no-op leaving the whole observable state (dataframe, CSV file and
notifications) unchanged, and deleting the same identity twice makes the
second call a no-op: `delete` is idempotent on the dataset state. -/
theorem C8_delete_noop_and_idempotent (c : Category) (text : String) (st : DataState) :
    (st.mem.countP (fun r => r.personnummer = firstSpaceField text) ≠ 1 →
        deletePatientButtonClicked c text st = st) ∧
      deletePatientButtonClicked c text (deletePatientButtonClicked c text st) =
        deletePatientButtonClicked c text st := by
  have hno : ∀ s : DataState,
      s.mem.countP (fun r => r.personnummer = firstSpaceField text) ≠ 1 →
      deletePatientButtonClicked c text s = s := by
    intro s hs
    simp [deletePatientButtonClicked, hs]
  refine ⟨hno st, ?_⟩
  by_cases h : st.mem.countP (fun r => r.personnummer = firstSpaceField text) = 1
  · have hmem : (deletePatientButtonClicked c text st).mem =
        st.mem.filter (fun r => !(r.personnummer = firstSpaceField text : Bool)) := by
      simp [deletePatientButtonClicked, h, saveToCsv]
    apply hno
    rw [hmem]
    have hz : (st.mem.filter
        (fun r => !(r.personnummer = firstSpaceField text : Bool))).countP
        (fun r => (r.personnummer = firstSpaceField text : Bool)) = 0 := by
      rw [List.countP_eq_zero]
      intro a ha
      have := (List.mem_filter.mp ha).2
      simpa using this
    simp [hz]
  · rw [hno st h]
    exact hno st h

/-- C9: a grid cell edit whose value fails the column's validation rule is
silently discarded — the dataframe, the CSV file and the notification log
are all left exactly as they were. -/
theorem C9_invalid_edit_discarded (c : Category) (row column : Nat) (text : String)
    (st : DataState) (h : checkIfValid column text = some false) :
    cellChanged c row column text st = st := by
  simp [cellChanged, h]

/-- C9 witness: the invalid area value "Nowhere" in the area column leaves a
concrete one-record state untouched. -/
theorem C9_invalid_edit_discarded_witness :
    cellChanged .samsa 0 3 "Nowhere" exOne = exOne :=
  C9_invalid_edit_discarded .samsa 0 3 "Nowhere" exOne (by decide)

/-- C10: for a column index outside {0, 1, 2, 3, 4, 6} (in particular 5, the
hidden category column) `check_if_valid` falls through to Python's None, so
the edit is always discarded: the state is unchanged and nobody is
notified, whatever the value. -/
theorem C10_fallthrough_column_discarded (c : Category) (row column : Nat) (text : String)
    (st : DataState) (h : column ∉ ([0, 1, 2, 3, 4, 6] : List Nat)) :
    checkIfValid column text = none ∧ cellChanged c row column text st = st := by
  have hv : checkIfValid column text = none := by
    rcases column with _ | _ | _ | _ | _ | _ | _ | n
    · exact absurd (by decide) h
    · exact absurd (by decide) h
    · exact absurd (by decide) h
    · exact absurd (by decide) h
    · exact absurd (by decide) h
    · rfl
    · exact absurd (by decide) h
    · rfl
  exact ⟨hv, by simp [cellChanged, hv]⟩

/-- C10 witness: editing the hidden category column (index 5) is discarded on
a concrete one-record state. -/
theorem C10_fallthrough_column_discarded_witness :
    checkIfValid 5 "KORTTID" = none ∧ cellChanged .samsa 0 5 "KORTTID" exOne = exOne :=
  C10_fallthrough_column_discarded .samsa 0 5 "KORTTID" exOne (by decide)

/-- C6: when every parsed target passes the identity format check, reconcile
reports as removed exactly the identities present in the dataframe but not
among the targets, reports as added exactly the targets not present, leaves
the stored identity set equal to the target set, stores exactly one all-"-"
placeholder record per added identity, and every stored record is either a
pre-existing one or such a placeholder. -/
theorem C6_reconcile_set_difference (rawText : String) (st : DataState)
    (hvalid : (parseTargets rawText).all checkFormatPersonalNr = true) :
    (∀ p, p ∈ (updateSamsaButtonClicked rawText st).2.1 ↔
        (∃ r ∈ st.mem, r.personnummer = p) ∧ p ∉ parseTargets rawText) ∧
      (∀ p, p ∈ (updateSamsaButtonClicked rawText st).2.2 ↔
        p ∈ parseTargets rawText ∧ ¬∃ r ∈ st.mem, r.personnummer = p) ∧
      (∀ p, (∃ r ∈ (updateSamsaButtonClicked rawText st).1.disk, r.personnummer = p) ↔
        p ∈ parseTargets rawText) ∧
      (∀ p ∈ (updateSamsaButtonClicked rawText st).2.2,
        (updateSamsaButtonClicked rawText st).1.disk.countP
            (fun r => r.personnummer = p) = 1 ∧
          placeholderRecord p ∈ (updateSamsaButtonClicked rawText st).1.disk) ∧
      (∀ r ∈ (updateSamsaButtonClicked rawText st).1.disk,
        r ∈ st.mem ∨ ∃ p, p ∈ (updateSamsaButtonClicked rawText st).2.2 ∧
          r = placeholderRecord p) := by
  rw [updateSamsa_eq_of_valid rawText st hvalid]
  dsimp only
  refine ⟨?_, ?_, ?_, ?_, ?_⟩
  · intro p
    rw [List.mem_dedup, List.mem_filter]
    constructor
    · rintro ⟨hpE, hpc⟩
      refine ⟨List.mem_map.mp hpE, ?_⟩
      have hf : (parseTargets rawText).contains p = false := by simpa using hpc
      exact (contains_eq_false_iff _ _).mp hf
    · rintro ⟨⟨r, hr, hrp⟩, hnp⟩
      refine ⟨List.mem_map.mpr ⟨r, hr, hrp⟩, ?_⟩
      simpa using (contains_eq_false_iff _ _).mpr hnp
  · intro p
    rw [List.mem_dedup, List.mem_filter]
    constructor
    · rintro ⟨hpv, hpc⟩
      refine ⟨hpv, ?_⟩
      rintro ⟨r, hr, hrp⟩
      have hf : (st.mem.map (fun r => r.personnummer)).contains p = false := by
        simpa using hpc
      exact (contains_eq_false_iff _ _).mp hf (List.mem_map.mpr ⟨r, hr, hrp⟩)
    · rintro ⟨hpv, hne⟩
      refine ⟨hpv, ?_⟩
      have hnm : p ∉ st.mem.map (fun r => r.personnummer) := by
        intro hmem
        rcases List.mem_map.mp hmem with ⟨r, hr, hrp⟩
        exact hne ⟨r, hr, hrp⟩
      simpa using (contains_eq_false_iff _ _).mpr hnm
  · intro p
    constructor
    · rintro ⟨r, hr, hrp⟩
      rcases List.mem_append.mp hr with hk | hph
      · have hcont := (List.mem_filter.mp hk).2
        rw [hrp] at hcont
        exact (contains_iff_mem _ _).mp hcont
      · rcases List.mem_map.mp hph with ⟨q, hq, hqr⟩
        have hq' := (List.mem_filter.mp (List.mem_dedup.mp hq)).1
        subst hqr
        have hqp : q = p := hrp
        subst hqp
        exact hq'
    · intro hpv
      by_cases hE : p ∈ st.mem.map (fun r => r.personnummer)
      · rcases List.mem_map.mp hE with ⟨r, hr, hrp⟩
        refine ⟨r, List.mem_append.mpr (Or.inl (List.mem_filter.mpr ⟨hr, ?_⟩)), hrp⟩
        rw [hrp]
        exact (contains_iff_mem _ _).mpr hpv
      · refine ⟨placeholderRecord p, List.mem_append.mpr (Or.inr ?_), rfl⟩
        refine List.mem_map.mpr ⟨p, ?_, rfl⟩
        rw [List.mem_dedup, List.mem_filter]
        exact ⟨hpv, by simpa using (contains_eq_false_iff _ _).mpr hE⟩
  · intro p hp
    have hpadded := hp
    rw [List.mem_dedup, List.mem_filter] at hp
    obtain ⟨hpv, hpE⟩ := hp
    have hpnotE : p ∉ st.mem.map (fun r => r.personnummer) :=
      (contains_eq_false_iff _ _).mp (by simpa using hpE)
    constructor
    · rw [List.countP_append]
      have h1 : (st.mem.filter
          (fun r => (parseTargets rawText).contains r.personnummer)).countP
          (fun r => (r.personnummer = p : Bool)) = 0 := by
        rw [List.countP_eq_zero]
        intro r hr hrp
        have hrp' : r.personnummer = p := by simpa using hrp
        exact hpnotE (List.mem_map.mpr ⟨r, (List.mem_filter.mp hr).1, hrp'⟩)
      rw [h1, List.countP_map]
      have h2 : List.countP ((fun r => (r.personnummer = p : Bool)) ∘ placeholderRecord)
          (((parseTargets rawText).filter (fun q =>
            !(st.mem.map (fun r => r.personnummer)).contains q)).dedup) =
          List.countP (fun q => (q = p : Bool))
          (((parseTargets rawText).filter (fun q =>
            !(st.mem.map (fun r => r.personnummer)).contains q)).dedup) := rfl
      rw [h2, countP_eq_one_of_nodup_mem (List.nodup_dedup _) hpadded]
    · exact List.mem_append.mpr (Or.inr (List.mem_map.mpr ⟨p, hpadded, rfl⟩))
  · intro r hr
    rcases List.mem_append.mp hr with hk | hph
    · exact Or.inl (List.mem_filter.mp hk).1
    · rcases List.mem_map.mp hph with ⟨q, hq, hqr⟩
      exact Or.inr ⟨q, hq, hqr.symm⟩

/-- C6 witness: the spec's scenario — SAMSA holds identities 010101-1234 and
020202-2345, the targets are 020202-2345 and 030303-3456; removed is exactly
[010101-1234], added exactly [030303-3456], and the stored identity set ends
up equal to the target set. -/
theorem C6_reconcile_set_difference_witness :
    (updateSamsaButtonClicked "020202-2345,030303-3456" exTwo).2.1 = ["010101-1234"] ∧
      (updateSamsaButtonClicked "020202-2345,030303-3456" exTwo).2.2 = ["030303-3456"] ∧
      (updateSamsaButtonClicked "020202-2345,030303-3456" exTwo).1.disk.map
          (fun r => r.personnummer) = ["020202-2345", "030303-3456"] ∧
      (∀ p, (∃ r ∈ (updateSamsaButtonClicked "020202-2345,030303-3456" exTwo).1.disk,
          r.personnummer = p) ↔ p ∈ parseTargets "020202-2345,030303-3456") :=
  ⟨by decide, by decide, by decide,
    (C6_reconcile_set_difference "020202-2345,030303-3456" exTwo (by decide)).2.2.1⟩

/-- C7: when every parsed target passes the identity format check, running
reconcile twice with the same textbox contents reports empty removed and
added lists on the second call, and the second call leaves the dataframe and
the CSV file exactly as the first call left them. -/
theorem C7_reconcile_idempotent (rawText : String) (st : DataState)
    (hvalid : (parseTargets rawText).all checkFormatPersonalNr = true) :
    (updateSamsaButtonClicked rawText (updateSamsaButtonClicked rawText st).1).2.1 = [] ∧
      (updateSamsaButtonClicked rawText (updateSamsaButtonClicked rawText st).1).2.2 = [] ∧
      (updateSamsaButtonClicked rawText (updateSamsaButtonClicked rawText st).1).1.mem =
        (updateSamsaButtonClicked rawText st).1.mem ∧
      (updateSamsaButtonClicked rawText (updateSamsaButtonClicked rawText st).1).1.disk =
        (updateSamsaButtonClicked rawText st).1.disk := by
  have hset := C6_reconcile_set_difference rawText st hvalid
  obtain ⟨-, -, hdisk, -, -⟩ := hset
  have hmemdisk : (updateSamsaButtonClicked rawText st).1.mem =
      (updateSamsaButtonClicked rawText st).1.disk := by
    rw [updateSamsa_eq_of_valid rawText st hvalid]
  -- every identity of the first call's result is among the targets
  have hall : ∀ r ∈ (updateSamsaButtonClicked rawText st).1.mem,
      (parseTargets rawText).contains r.personnummer = true := by
    intro r hr
    rw [hmemdisk] at hr
    exact (contains_iff_mem _ _).mpr ((hdisk r.personnummer).mp ⟨r, hr, rfl⟩)
  -- every target occurs among the result's identities
  have hcov : ∀ p ∈ parseTargets rawText,
      p ∈ (updateSamsaButtonClicked rawText st).1.mem.map (fun r => r.personnummer) := by
    intro p hp
    rcases (hdisk p).mpr hp with ⟨r, hr, hrp⟩
    rw [← hmemdisk] at hr
    exact List.mem_map.mpr ⟨r, hr, hrp⟩
  rw [updateSamsa_eq_of_valid rawText ((updateSamsaButtonClicked rawText st).1) hvalid]
  dsimp only
  have hremoved :
      ((updateSamsaButtonClicked rawText st).1.mem.map (fun r => r.personnummer)).filter
        (fun p => !(parseTargets rawText).contains p) = [] := by
    rw [List.filter_eq_nil_iff]
    intro p hp
    rcases List.mem_map.mp hp with ⟨r, hr, hrp⟩
    subst hrp
    have hm : r.personnummer ∈ parseTargets rawText := (contains_iff_mem _ _).mp (hall r hr)
    simp [hm]
  have hadded :
      (parseTargets rawText).filter (fun p =>
        !((updateSamsaButtonClicked rawText st).1.mem.map
          (fun r => r.personnummer)).contains p) = [] := by
    rw [List.filter_eq_nil_iff]
    intro p hp
    simp [hcov p hp]
  have hkept :
      (updateSamsaButtonClicked rawText st).1.mem.filter
        (fun r => (parseTargets rawText).contains r.personnummer) =
      (updateSamsaButtonClicked rawText st).1.mem :=
    List.filter_eq_self.mpr hall
  rw [hremoved, hadded, hkept]
  simp [hmemdisk]

/-- C7 witness: reconciling the two-record SAMSA dataset with the same target
list twice — the second call reports nothing removed or added and leaves the
dataset as the first call left it. -/
theorem C7_reconcile_idempotent_witness :
    (updateSamsaButtonClicked "020202-2345,030303-3456"
        (updateSamsaButtonClicked "020202-2345,030303-3456" exTwo).1).2.1 = [] ∧
      (updateSamsaButtonClicked "020202-2345,030303-3456"
        (updateSamsaButtonClicked "020202-2345,030303-3456" exTwo).1).2.2 = [] ∧
      (updateSamsaButtonClicked "020202-2345,030303-3456"
          (updateSamsaButtonClicked "020202-2345,030303-3456" exTwo).1).1.mem =
        (updateSamsaButtonClicked "020202-2345,030303-3456" exTwo).1.mem ∧
      (updateSamsaButtonClicked "020202-2345,030303-3456"
          (updateSamsaButtonClicked "020202-2345,030303-3456" exTwo).1).1.disk =
        (updateSamsaButtonClicked "020202-2345,030303-3456" exTwo).1.disk :=
  C7_reconcile_idempotent "020202-2345,030303-3456" exTwo (by decide)

end ChristiansTool
